import Mathlib

/-!
Verification of the nftopia analytics service derived-metrics pipeline
(`src/analytics/tasks.py`, `src/analytics/models.py`) against its
natural-language specification.

Timestamps used by the periodic query tasks are modelled as integers
(seconds); `timedelta(minutes=5) = 300`, `timedelta(days=7) = 604800`,
`timedelta(days=30) = 2592000`, `timedelta(days=90) = 7776000`.
Python floats produced by the arithmetic in the tasks are modelled as
exact rationals.  Calendar datetimes used by
`AutomatedReport.calculate_next_run` are modelled by a civil-calendar
datetime type further below.
-/

/-- Modelled from the spec: the `AnomalyDetection` model class itself is not
among the provided sources (only its callers in `tasks.py` are); §3 of the
spec gives its fields `detected_at` and `status ∈ {pending, processed, failed}`.
The `id` field stands for the database primary key. -/
structure AnomalyDetection where
  id : Nat
  detected_at : Int
  status : String
deriving DecidableEq

/-- Modelled from the spec: the `WebhookLog` model class is not among the
provided sources; §3 of the spec records one delivery attempt with an
outcome and a timestamp (`sent_at` is the field queried by
`cleanup_old_data_task`). -/
structure WebhookLog where
  id : Nat
  sent_at : Int
deriving DecidableEq

/-- Queryset of `trigger_webhooks_task` (tasks.py lines 92-95):
`AnomalyDetection.objects.filter(detected_at__gte=timezone.now() - timedelta(minutes=5), status='pending')`. -/
def selectedAnomalies (now : Int) (rows : List AnomalyDetection) : List AnomalyDetection :=
  rows.filter (fun a => decide (now - 300 ≤ a.detected_at ∧ a.status = "pending"))

/-- Success test for a fallible external call modelled in the `Except` monad. -/
def isSuccess {ε α : Type} : Except ε α → Bool
  | Except.ok _ => true
  | Except.error _ => false

/-- Loop body of `trigger_webhooks_task` (tasks.py lines 99-100).  The loop
has no per-item exception handler: an exception raised by
`send_anomaly_alert` propagates to the task-level `except` (line 104) and
aborts the remainder of the batch.  The returned list is the trace of
anomalies on which `send_anomaly_alert` was actually invoked. -/
def webhookSendLoop (send : AnomalyDetection → Except String Unit) :
    List AnomalyDetection → List AnomalyDetection
  | [] => []
  | a :: rest =>
    match send a with
    | Except.ok _ => a :: webhookSendLoop send rest
    | Except.error _ => [a]

/-- Embedding of `trigger_webhooks_task` (tasks.py lines 87-105): select the
recent pending anomalies, then invoke `send_anomaly_alert` on each in turn
(aborting the loop at the first exception).  The result is the trace of
invoked anomalies. -/
def trigger_webhooks_task (send : AnomalyDetection → Except String Unit)
    (now : Int) (rows : List AnomalyDetection) : List AnomalyDetection :=
  webhookSendLoop send (selectedAnomalies now rows)

/-- Two concurrent executions of `trigger_webhooks_task` in the interleaving
where both runs issue their queryset against the same database snapshot.
`tasks.py` performs no status transition on an anomaly between selecting it
and sending it (spec §5 itself notes the window "is a throttle, not a
lock"), so each run dispatches independently; the result concatenates the
two invocation traces. -/
def concurrentDispatches (send1 send2 : AnomalyDetection → Except String Unit)
    (now : Int) (rows : List AnomalyDetection) : List AnomalyDetection :=
  trigger_webhooks_task send1 now rows ++ trigger_webhooks_task send2 now rows

/-- Embedding of `cleanup_old_data_task` (tasks.py lines 212-242).  The task
calls `timezone.now()` once for the anomaly cutoff (line 217) and once for
the log cutoff (line 224); the two instants are `now1` and `now2`.  It
deletes `AnomalyDetection.objects.filter(detected_at__lt=now1 - 90 days)`
and `WebhookLog.objects.filter(sent_at__lt=now2 - 30 days)`.  The result is
the pair of surviving tables together with the two deleted-row counts the
task reports. -/
def cleanup_old_data_task (now1 now2 : Int)
    (anomalies : List AnomalyDetection) (logs : List WebhookLog) :
    (List AnomalyDetection × List WebhookLog) × (Nat × Nat) :=
  let cutoff_date := now1 - 90 * 86400
  let old_anomalies := anomalies.filter (fun a => decide (a.detected_at < cutoff_date))
  let remaining_anomalies := anomalies.filter (fun a => decide (¬ a.detected_at < cutoff_date))
  let log_cutoff := now2 - 30 * 86400
  let old_logs := logs.filter (fun l => decide (l.sent_at < log_cutoff))
  let remaining_logs := logs.filter (fun l => decide (¬ l.sent_at < log_cutoff))
  ((remaining_anomalies, remaining_logs), (old_anomalies.length, old_logs.length))

/-- Gregorian leap-year test, as implemented by Python's `datetime` module. -/
def isLeapYear (y : Nat) : Bool :=
  y % 4 == 0 && (y % 100 != 0 || y % 400 == 0)

/-- Length of a calendar month. -/
def daysInMonth (y m : Nat) : Nat :=
  if m = 2 then (if isLeapYear y then 29 else 28)
  else if m = 4 ∨ m = 6 ∨ m = 9 ∨ m = 11 then 30
  else 31

/-- Civil-calendar datetime mirroring Python's `datetime`: a calendar date
plus a time of day (`tod`, seconds since midnight).  All operations used by
`calculate_next_run` (`replace(day=28)`, adding or subtracting a whole
number of days, reading `.day`) leave `tod` untouched, exactly as
`timedelta(days=n)` arithmetic does. -/
structure PDateTime where
  year : Nat
  month : Nat
  day : Nat
  tod : Nat
deriving DecidableEq

/-- Successor day in the civil calendar (time of day preserved). -/
def nextDay (d : PDateTime) : PDateTime :=
  if d.day < daysInMonth d.year d.month then { d with day := d.day + 1 }
  else if d.month < 12 then { d with month := d.month + 1, day := 1 }
  else { year := d.year + 1, month := 1, day := 1, tod := d.tod }

/-- Predecessor day in the civil calendar (time of day preserved). -/
def prevDay (d : PDateTime) : PDateTime :=
  if 1 < d.day then { d with day := d.day - 1 }
  else if 1 < d.month then { d with month := d.month - 1, day := daysInMonth d.year (d.month - 1) }
  else { year := d.year - 1, month := 12, day := 31, tod := d.tod }

/-- Python's `dt + timedelta(days=n)`. -/
def addDays (d : PDateTime) : Nat → PDateTime
  | 0 => d
  | n + 1 => nextDay (addDays d n)

/-- Python's `dt - timedelta(days=n)`. -/
def subDays (d : PDateTime) : Nat → PDateTime
  | 0 => d
  | n + 1 => prevDay (subDays d n)

/-- Chronological order on civil datetimes (Python's `<=` on `datetime`). -/
def PDateTime.leb (a b : PDateTime) : Bool :=
  if a.year ≠ b.year then decide (a.year < b.year)
  else if a.month ≠ b.month then decide (a.month < b.month)
  else if a.day ≠ b.day then decide (a.day < b.day)
  else decide (a.tod ≤ b.tod)

/-- Embedding of the `AutomatedReport` model (models.py lines 272-294),
restricted to the fields `calculate_next_run` and
`generate_scheduled_reports_task` read or write. -/
structure AutomatedReport where
  frequency : String
  last_run : Option PDateTime
  next_run : PDateTime
  is_active : Bool
deriving DecidableEq

/-- Embedding of `AutomatedReport.calculate_next_run` (models.py lines
296-309): with no `last_run` the next run is `timezone.now()`; otherwise
daily adds one day, weekly adds seven, and monthly computes
`self.last_run.replace(day=28) + timedelta(days=4)` and then subtracts
`timedelta(days=next_month.day - 1)`. -/
def calculate_next_run (now : PDateTime) (r : AutomatedReport) : AutomatedReport :=
  match r.last_run with
  | none => { r with next_run := now }
  | some lastRun =>
    if r.frequency = "daily" then { r with next_run := addDays lastRun 1 }
    else if r.frequency = "weekly" then { r with next_run := addDays lastRun 7 }
    else if r.frequency = "monthly" then
      let next_month := addDays { lastRun with day := 28 } 4
      { r with next_run := subDays next_month (next_month.day - 1) }
    else r

/-- Due-report test of `generate_scheduled_reports_task` (tasks.py lines
250-253): `is_active=True, next_run__lte=now`. -/
def isDueReport (now : PDateTime) (r : AutomatedReport) : Bool :=
  r.is_active && PDateTime.leb r.next_run now

/-- Queryset of `generate_scheduled_reports_task`. -/
def dueReports (now : PDateTime) (reports : List AutomatedReport) : List AutomatedReport :=
  reports.filter (isDueReport now)

/-- Loop of `generate_scheduled_reports_task` (tasks.py lines 258-271).
Each iteration runs under its own `try`/`except`, so a failing generation
is logged and the loop continues with the next due report.  On success the
report's `last_run` is set to `now`, `calculate_next_run` is applied and
the report saved, and `generated_count` is incremented.  The result pairs
the saved batch (every input report, updated when its generation
succeeded) with `generated_count`. -/
def generateReportsLoop (gen : AutomatedReport → Except String Unit) (now : PDateTime) :
    List AutomatedReport → List AutomatedReport × Nat
  | [] => ([], 0)
  | r :: rest =>
    match gen r with
    | Except.ok _ =>
      let updated := calculate_next_run now { r with last_run := some now }
      let tail := generateReportsLoop gen now rest
      (updated :: tail.1, tail.2 + 1)
    | Except.error _ =>
      let tail := generateReportsLoop gen now rest
      (r :: tail.1, tail.2)

/-- Embedding of `generate_scheduled_reports_task` (tasks.py lines
245-285): select the due reports, then process them with per-item
exception isolation. -/
def generate_scheduled_reports_task (gen : AutomatedReport → Except String Unit)
    (now : PDateTime) (reports : List AutomatedReport) : List AutomatedReport × Nat :=
  generateReportsLoop gen now (dueReports now reports)

/-- Modelled from the spec: the `NFTTransaction` model class is not among
the provided sources; §3 describes raw sale/transaction events with a
timestamp, a price, and counterparty addresses, and
`update_user_behavior_profiles_task` reads the fields `price`, `timestamp`,
`nft_contract`, `buyer_address` and `seller_address`.  A missing price
(`None`) is represented by `none`. -/
structure NFTTransaction where
  price : Option ℚ
  timestamp : Int
  nft_contract : String
  buyer_address : String
  seller_address : String
deriving DecidableEq

/-- Modelled from the spec: the `UserBehaviorProfile` model class is not
among the provided sources; §3 lists the fields of a behavior profile, and
`update_user_behavior_profiles_task` writes exactly these. -/
structure UserBehaviorProfile where
  wallet_address : String
  first_seen : Int
  last_activity : Int
  avg_transaction_value : ℚ
  transaction_frequency : ℚ
  total_transactions : Nat
  total_volume : ℚ
  preferred_collections : List String
  risk_score : ℚ
deriving DecidableEq

/-- Freshly created profile of `get_or_create` (tasks.py lines 127-133):
`defaults={'first_seen': timezone.now(), 'last_activity': timezone.now()}`,
all other fields at their model defaults. -/
def freshProfile (address : String) (now : Int) : UserBehaviorProfile :=
  { wallet_address := address, first_seen := now, last_activity := now,
    avg_transaction_value := 0, transaction_frequency := 0,
    total_transactions := 0, total_volume := 0,
    preferred_collections := [], risk_score := 0 }

/-- Queryset of tasks.py lines 136-138:
`NFTTransaction.objects.filter(Q(buyer_address=address) | Q(seller_address=address))`. -/
def userTxs (txs : List NFTTransaction) (address : String) : List NFTTransaction :=
  txs.filter (fun tx => decide (tx.buyer_address = address ∨ tx.seller_address = address))

/-- Sum of sale prices, a missing price counting as 0 (tasks.py line 142):
`sum(float(tx.price or 0) for tx in user_txs)`. -/
def totalVolumeOf (utx : List NFTTransaction) : ℚ :=
  (utx.map (fun tx => tx.price.getD 0)).sum

/-- Average transaction value (tasks.py line 146):
`total_volume / total_count if total_count > 0 else 0`. -/
def avgValueOf (utx : List NFTTransaction) : ℚ :=
  if 0 < utx.length then totalVolumeOf utx / (utx.length : ℚ) else 0

/-- Timestamp of `user_txs.order_by('timestamp').first()` (tasks.py line
149); defined as 0 on the empty list, which the task never queries. -/
def firstTimestampOf : List NFTTransaction → Int
  | [] => 0
  | tx :: rest => rest.foldl (fun m t => min m t.timestamp) tx.timestamp

/-- Timestamp of `user_txs.order_by('timestamp').last()` (tasks.py line
150); defined as 0 on the empty list, which the task never queries. -/
def lastTimestampOf : List NFTTransaction → Int
  | [] => 0
  | tx :: rest => rest.foldl (fun m t => max m t.timestamp) tx.timestamp

/-- Active-day span (tasks.py line 153):
`(last_tx.timestamp - first_tx.timestamp).days + 1`, a `timedelta` whose
`.days` is the span in whole days. -/
def daysActiveOf (utx : List NFTTransaction) : Int :=
  (lastTimestampOf utx - firstTimestampOf utx) / 86400 + 1

/-- Transactions per day (tasks.py line 154):
`total_count / days_active if days_active > 0 else 0`. -/
def frequencyOf (utx : List NFTTransaction) : ℚ :=
  if 0 < daysActiveOf utx then (utx.length : ℚ) / (daysActiveOf utx : ℚ) else 0

/-- Per-collection transaction tally in first-encounter order (tasks.py
lines 159-163), mirroring the insertion-ordered Python dict. -/
def collectionCounts (utx : List NFTTransaction) : List (String × Nat) :=
  utx.foldl
    (fun acc tx =>
      if acc.any (fun p => p.1 == tx.nft_contract)
      then acc.map (fun p => if p.1 == tx.nft_contract then (p.1, p.2 + 1) else p)
      else acc ++ [(tx.nft_contract, 1)])
    []

/-- Stable insertion of a tally into a list sorted by descending count: the
entry goes after every entry with an equal or higher count, matching the
stability of Python's `sorted`. -/
def insertByCountDesc (x : String × Nat) : List (String × Nat) → List (String × Nat)
  | [] => [x]
  | y :: rest => if y.2 < x.2 then x :: y :: rest else y :: insertByCountDesc x rest

/-- Stable sort by descending count, modelling
`sorted(collections.items(), key=lambda x: x[1], reverse=True)`
(tasks.py lines 165-169). -/
def sortByCountDesc (l : List (String × Nat)) : List (String × Nat) :=
  l.foldl (fun acc x => insertByCountDesc x acc) []

/-- Top-5 collections by count (tasks.py line 169), still as (contract,
count) pairs; the risk heuristic reads this list's length and the stored
profile keeps only the contract addresses. -/
def preferredPairsOf (utx : List NFTTransaction) : List (String × Nat) :=
  (sortByCountDesc (collectionCounts utx)).take 5

/-- Python's two-argument `min` on numbers: the first argument when it is
less than or equal to the second, the second otherwise. -/
def pymin (a b : ℚ) : ℚ := if a ≤ b then a else b

/-- Risk-score block of tasks.py lines 171-192: start at 0, add 0.3 when
frequency exceeds 10 transactions per day, add 0.2 when total volume
exceeds 100, add 0.3 when there are at most 2 preferred collections and
more than 10 transactions in total, then clamp with `min(risk_score, 1.0)`. -/
def riskFrom (frequency total_volume : ℚ) (preferredLen total_count : Nat) : ℚ :=
  let risk : ℚ := 0
  let risk := if 10 < frequency then risk + 0.3 else risk
  let risk := if 100 < total_volume then risk + 0.2 else risk
  let risk := if preferredLen ≤ 2 ∧ 10 < total_count then risk + 0.3 else risk
  pymin risk 1

/-- Profile update of tasks.py lines 140-194, taken in the branch where the
address has at least one transaction: every derived field is overwritten
with a value computed from `utx` alone; `wallet_address` and `first_seen`
are left as they are. -/
def computedProfile (p : UserBehaviorProfile) (utx : List NFTTransaction) : UserBehaviorProfile :=
  { p with
    avg_transaction_value := avgValueOf utx,
    transaction_frequency := frequencyOf utx,
    total_transactions := utx.length,
    total_volume := totalVolumeOf utx,
    preferred_collections := (preferredPairsOf utx).map Prod.fst,
    risk_score := riskFrom (frequencyOf utx) (totalVolumeOf utx) (preferredPairsOf utx).length utx.length,
    last_activity := lastTimestampOf utx }

/-- Per-address body of `update_user_behavior_profiles_task` (tasks.py
lines 126-196): `get_or_create` the profile, fetch the address's lifetime
transactions, and when any exist overwrite the derived fields. -/
def updateProfileForAddress (now : Int) (txs : List NFTTransaction) (address : String)
    (existing : Option UserBehaviorProfile) : UserBehaviorProfile :=
  let profile := existing.getD (freshProfile address now)
  let utx := userTxs txs address
  if utx.isEmpty then profile else computedProfile profile utx

/-- Set-insertion step of tasks.py lines 118-122: add the buyer and seller
addresses of a transaction to the address set when they are non-empty. -/
def addAddresses (acc : List String) (tx : NFTTransaction) : List String :=
  let acc1 := if tx.buyer_address ≠ "" ∧ tx.buyer_address ∉ acc then acc ++ [tx.buyer_address] else acc
  if tx.seller_address ≠ "" ∧ tx.seller_address ∉ acc1 then acc1 ++ [tx.seller_address] else acc1

/-- Address collection of tasks.py lines 114-122: the distinct buyer and
seller addresses over transactions with `timestamp__gte=windowStart`. -/
def recentAddresses (windowStart : Int) (txs : List NFTTransaction) : List String :=
  (txs.filter (fun tx => decide (windowStart ≤ tx.timestamp))).foldl addAddresses []

/-- Store write performed for one address by the profile loop: the
database keyed by wallet address, updated at `addr`. -/
def profileStep (now : Int) (txs : List NFTTransaction)
    (s : String → Option UserBehaviorProfile) (addr : String) :
    String → Option UserBehaviorProfile :=
  fun a => if a = addr then some (updateProfileForAddress now txs addr (s addr)) else s a

/-- Embedding of `update_user_behavior_profiles_task` (tasks.py lines
107-210) in the run where no per-address exception occurs: collect the
addresses active in the last 7 days (`now - 604800`), then upsert each
address's profile in turn. -/
def update_user_behavior_profiles_task (now : Int) (txs : List NFTTransaction)
    (store : String → Option UserBehaviorProfile) : String → Option UserBehaviorProfile :=
  (recentAddresses (now - 604800) txs).foldl (profileStep now txs) store

/-- Per-address loop of `update_user_behavior_profiles_task` under a
fallible per-address body: the loop has no per-item exception handler, so
an exception propagates to the task-level `except` (tasks.py line 205) and
aborts the remainder of the batch.  The result is the trace of addresses
actually processed. -/
def profileUpdateLoop (upd : String → Except String Unit) : List String → List String
  | [] => []
  | a :: rest =>
    match upd a with
    | Except.ok _ => a :: profileUpdateLoop upd rest
    | Except.error _ => [a]

/-- Embedding of the `RetentionCohort` model (models.py lines 68-102),
restricted to the fields `calculate_retention_rate` reads or writes. -/
structure RetentionCohort where
  total_users : Int
  retained_users : Int
  retention_rate : ℚ
deriving DecidableEq

/-- Embedding of `RetentionCohort.calculate_retention_rate` (models.py
lines 96-102): when `total_users > 0` the rate is
`(retained_users / total_users) * 100`, otherwise it is set to `0.00`; the
division is only ever executed under the positivity guard. -/
def calculate_retention_rate (c : RetentionCohort) : RetentionCohort :=
  if 0 < c.total_users then
    { c with retention_rate := ((c.retained_users : ℚ) / (c.total_users : ℚ)) * 100 }
  else
    { c with retention_rate := 0 }

/-! ### Helper lemmas -/

theorem pymin_eq_min (a b : ℚ) : pymin a b = min a b := by
  unfold pymin
  split_ifs with h
  · exact (min_eq_left h).symm
  · exact (min_eq_right (le_of_not_le h)).symm

theorem riskFrom_eq_clamped_sum (f v : ℚ) (pl tc : Nat) :
    riskFrom f v pl tc =
      min ((if 10 < f then (0.3 : ℚ) else 0) + (if 100 < v then (0.2 : ℚ) else 0) +
        (if pl ≤ 2 ∧ 10 < tc then (0.3 : ℚ) else 0)) 1 := by
  unfold riskFrom
  rw [pymin_eq_min]
  split_ifs <;> norm_num

theorem riskFrom_bounds (f v : ℚ) (pl tc : Nat) :
    0 ≤ riskFrom f v pl tc ∧ riskFrom f v pl tc ≤ 1 := by
  unfold riskFrom pymin
  split_ifs <;> norm_num

theorem PDateTime.leb_refl (a : PDateTime) : PDateTime.leb a a = true := by
  unfold PDateTime.leb
  simp

/-! ### Claim theorems -/

/-- C5: `calculate_retention_rate` sets `retention_rate` to
`(retained_users / total_users) * 100` when `total_users > 0` and to
exactly 0 when `total_users = 0`, never dividing by zero; in particular
`total_users = 200`, `retained_users = 50` yields 25. -/
theorem C5_retention_rate_correct (c : RetentionCohort) :
    (0 < c.total_users →
      (calculate_retention_rate c).retention_rate =
        ((c.retained_users : ℚ) / (c.total_users : ℚ)) * 100) ∧
    (c.total_users = 0 → (calculate_retention_rate c).retention_rate = 0) ∧
    (c.total_users = 200 → c.retained_users = 50 →
      (calculate_retention_rate c).retention_rate = 25) := by
  refine ⟨fun h => ?_, fun h => ?_, fun h1 h2 => ?_⟩
  · simp [calculate_retention_rate, h]
  · simp [calculate_retention_rate, h]
  · simp [calculate_retention_rate, h1, h2]
    norm_num

/-- Witness for C5 at the concrete cohort of the spec's test vector. -/
theorem C5_retention_rate_correct_witness :
    (calculate_retention_rate
      { total_users := 200, retained_users := 50, retention_rate := 0 }).retention_rate = 25 :=
  (C5_retention_rate_correct _).2.2 rfl rfl

/-- C9: at computed metrics frequency = 11 tx/day, volume = 150, 2
preferred collections and 15 total transactions, the risk-score block
yields `min(0.3 + 0.2 + 0.3, 1.0) = 0.8`. -/
theorem C9_risk_example :
    riskFrom 11 150 2 15 = min ((0.3 : ℚ) + 0.2 + 0.3) 1 ∧ riskFrom 11 150 2 15 = 0.8 := by
  constructor <;> norm_num [riskFrom, pymin]

/-- C2 (failing-input evaluation): for frequency = monthly and
last_run = January 31 2025 01:00, `calculate_next_run` sets `next_run` to
February 1 2025 01:00 — the first day of the following month, not the last
valid day of February claimed by the spec. -/
theorem C2_monthly_lands_on_first_of_month :
    (calculate_next_run ⟨2025, 2, 1, 3600⟩
      { frequency := "monthly", last_run := some ⟨2025, 1, 31, 3600⟩,
        next_run := ⟨2025, 1, 31, 3600⟩, is_active := true }).next_run = ⟨2025, 2, 1, 3600⟩ := by
  decide

/-- C10: with `last_run` unset, `calculate_next_run` sets `next_run` to the
current time, so an active report is immediately selected as due by
`generate_scheduled_reports_task`. -/
theorem C10_unset_last_run_immediately_due (now : PDateTime) (r : AutomatedReport)
    (h : r.last_run = none) :
    (calculate_next_run now r).next_run = now ∧
    (r.is_active = true → isDueReport now (calculate_next_run now r) = true) := by
  constructor
  · simp [calculate_next_run, h]
  · intro ha
    simp [calculate_next_run, h, isDueReport, ha, PDateTime.leb_refl]

/-- Witness for C10 at a concrete report with no previous run. -/
theorem C10_unset_last_run_immediately_due_witness :
    ({ frequency := "daily", last_run := none, next_run := ⟨2024, 1, 1, 0⟩,
        is_active := true } : AutomatedReport).last_run = none ∧
    (calculate_next_run ⟨2025, 6, 1, 0⟩
      { frequency := "daily", last_run := none, next_run := ⟨2024, 1, 1, 0⟩,
        is_active := true }).next_run = ⟨2025, 6, 1, 0⟩ :=
  ⟨rfl, (C10_unset_last_run_immediately_due ⟨2025, 6, 1, 0⟩ _ rfl).1⟩

/-- C8: `cleanup_old_data_task` keeps an anomaly exactly when its
`detected_at` is within the last 90 days of the first `now` and keeps a
webhook log exactly when its `sent_at` is within the last 30 days of the
second `now` — equivalently, it deletes exactly the strictly older rows,
independent of status or delivery outcome. -/
theorem C8_cleanup_deletes_exactly_old_rows (now1 now2 : Int)
    (anomalies : List AnomalyDetection) (logs : List WebhookLog) :
    (∀ a ∈ anomalies,
      a ∈ (cleanup_old_data_task now1 now2 anomalies logs).1.1 ↔ now1 - 90 * 86400 ≤ a.detected_at) ∧
    (∀ l ∈ logs,
      l ∈ (cleanup_old_data_task now1 now2 anomalies logs).1.2 ↔ now2 - 30 * 86400 ≤ l.sent_at) := by
  constructor
  · intro a ha
    simp [cleanup_old_data_task, List.mem_filter, ha, Int.not_lt]
  · intro l hl
    simp [cleanup_old_data_task, List.mem_filter, hl, Int.not_lt]

/-- Witness for C8: a 104-day-old anomaly is purged while a recent pending
one survives, on a concrete table. -/
theorem C8_cleanup_deletes_exactly_old_rows_witness :
    (⟨2, 9000000, "pending"⟩ : AnomalyDetection) ∈
      (cleanup_old_data_task 10000000 10000000
        [⟨1, 0, "processed"⟩, ⟨2, 9000000, "pending"⟩] [⟨7, 0⟩]).1.1 ∧
    (⟨1, 0, "processed"⟩ : AnomalyDetection) ∉
      (cleanup_old_data_task 10000000 10000000
        [⟨1, 0, "processed"⟩, ⟨2, 9000000, "pending"⟩] [⟨7, 0⟩]).1.1 :=
  ⟨((C8_cleanup_deletes_exactly_old_rows 10000000 10000000 _ _).1 _ (by decide)).mpr (by decide),
   fun hmem => absurd (((C8_cleanup_deletes_exactly_old_rows 10000000 10000000 _ _).1 _
      (by decide)).mp hmem) (by decide)⟩

/-- C7 (failing-input evaluation): two concurrent `trigger_webhooks_task`
runs that issue their queryset against the same snapshot both select a
pending anomaly detected just now and both dispatch it — the code performs
no claim transition, so the anomaly is delivered twice. -/
theorem C7_double_delivery_without_claim :
    (concurrentDispatches (fun _ => Except.ok ()) (fun _ => Except.ok ()) 1000
      [⟨1, 1000, "pending"⟩]).count ⟨1, 1000, "pending"⟩ = 2 := by
  decide

/-- Trace inclusion for the webhook loop: `send_anomaly_alert` is only ever
invoked on rows of the selected batch, whatever exceptions occur. -/
theorem webhookSendLoop_subset (send : AnomalyDetection → Except String Unit) :
    ∀ (l : List AnomalyDetection) (a : AnomalyDetection),
      a ∈ webhookSendLoop send l → a ∈ l := by
  intro l
  induction l with
  | nil => intro a ha; exact absurd ha (List.not_mem_nil a)
  | cons x rest ih =>
    intro a ha
    unfold webhookSendLoop at ha
    cases hsx : send x with
    | error e =>
      rw [hsx] at ha
      simp at ha
      simp [ha]
    | ok u =>
      rw [hsx] at ha
      rcases List.mem_cons.mp ha with h | h
      · simp [h]
      · exact List.mem_cons_of_mem x (ih a h)

/-- In a run where no send raises, the webhook loop processes the whole
selected batch in order. -/
theorem webhookSendLoop_all_ok (send : AnomalyDetection → Except String Unit)
    (hok : ∀ a, isSuccess (send a) = true) :
    ∀ l : List AnomalyDetection, webhookSendLoop send l = l := by
  intro l
  induction l with
  | nil => rfl
  | cons x rest ih =>
    unfold webhookSendLoop
    cases hsx : send x with
    | error e => exact absurd (hok x) (by simp [isSuccess, hsx])
    | ok u => rw [ih]

/-- C6: `trigger_webhooks_task` dispatches exactly the anomalies that are
pending and detected within the last 5 minutes — when no send raises the
invocation trace is the selected queryset itself, each distinct such row
is sent exactly once, and a stale-pending or non-pending anomaly is never
dispatched (the last part holds even in runs where sends do raise). -/
theorem C6_dispatch_exactly_recent_pending (now : Int) (rows : List AnomalyDetection)
    (send : AnomalyDetection → Except String Unit) :
    ((∀ a, isSuccess (send a) = true) →
      trigger_webhooks_task send now rows = selectedAnomalies now rows) ∧
    ((∀ a, isSuccess (send a) = true) → rows.Nodup →
      ∀ a ∈ rows, a.status = "pending" → now - 300 ≤ a.detected_at →
        (trigger_webhooks_task send now rows).count a = 1) ∧
    (∀ a : AnomalyDetection, a.status ≠ "pending" ∨ a.detected_at < now - 300 →
      a ∉ trigger_webhooks_task send now rows) := by
  refine ⟨fun hok => ?_, fun hok hnd a ha hst hrec => ?_, fun a hbad hmem => ?_⟩
  · exact webhookSendLoop_all_ok send hok _
  · rw [trigger_webhooks_task, webhookSendLoop_all_ok send hok]
    refine List.count_eq_one_of_mem (List.Nodup.filter _ hnd) ?_
    simp only [selectedAnomalies, List.mem_filter, decide_eq_true_eq]
    exact ⟨ha, hrec, hst⟩
  · have hsel := webhookSendLoop_subset send _ a hmem
    simp only [selectedAnomalies, List.mem_filter, decide_eq_true_eq] at hsel
    rcases hbad with h | h
    · exact h hsel.2.2
    · exact absurd hsel.2.1 (by omega)

/-- Witness for C6 on a concrete table: a stale pending anomaly and a
non-pending anomaly are not dispatched, while the recent pending one is
dispatched exactly once. -/
theorem C6_dispatch_exactly_recent_pending_witness :
    ((⟨2, 100, "pending"⟩ : AnomalyDetection) ∉
      trigger_webhooks_task (fun _ => Except.ok ()) 1000
        [⟨1, 900, "pending"⟩, ⟨2, 100, "pending"⟩, ⟨3, 950, "failed"⟩]) ∧
    ((trigger_webhooks_task (fun _ => Except.ok ()) 1000
        [⟨1, 900, "pending"⟩, ⟨2, 100, "pending"⟩, ⟨3, 950, "failed"⟩]).count
          ⟨1, 900, "pending"⟩ = 1) :=
  ⟨(C6_dispatch_exactly_recent_pending 1000
      [⟨1, 900, "pending"⟩, ⟨2, 100, "pending"⟩, ⟨3, 950, "failed"⟩]
      (fun _ => Except.ok ())).2.2 _ (Or.inr (by decide)),
   (C6_dispatch_exactly_recent_pending 1000
      [⟨1, 900, "pending"⟩, ⟨2, 100, "pending"⟩, ⟨3, 950, "failed"⟩]
      (fun _ => Except.ok ())).2.1 (fun _ => rfl) (by decide) _
     (by decide) (by decide) (by decide)⟩

/-- C3 (counterexample): in `trigger_webhooks_task`, an exception on the
first selected anomaly aborts the batch — the second selected anomaly is
never processed, contradicting per-item isolation in every loop. -/
theorem C3_counterexample_webhook_batch_aborts :
    (⟨2, 1000, "pending"⟩ : AnomalyDetection) ∈
      selectedAnomalies 1000 [⟨1, 1000, "pending"⟩, ⟨2, 1000, "pending"⟩] ∧
    (⟨2, 1000, "pending"⟩ : AnomalyDetection) ∉
      trigger_webhooks_task (fun a => if a.id = 1 then Except.error "boom" else Except.ok ())
        1000 [⟨1, 1000, "pending"⟩, ⟨2, 1000, "pending"⟩] := by
  decide

/-- Batch shape of the due-report loop: every due report is processed (the
saved batch has one entry per input report) whatever each generation does. -/
theorem generateReportsLoop_length (gen : AutomatedReport → Except String Unit)
    (now : PDateTime) :
    ∀ reports : List AutomatedReport,
      (generateReportsLoop gen now reports).1.length = reports.length := by
  intro reports
  induction reports with
  | nil => rfl
  | cons r rest ih =>
    unfold generateReportsLoop
    cases hgr : gen r with
    | error e => simpa using ih
    | ok u => simpa using ih

/-- Count characterization of the due-report loop: `generated_count` is the
number of due reports whose generation succeeds — later failures never
mask earlier ones and vice versa. -/
theorem generateReportsLoop_count (gen : AutomatedReport → Except String Unit)
    (now : PDateTime) :
    ∀ reports : List AutomatedReport,
      (generateReportsLoop gen now reports).2 =
        reports.countP (fun r => isSuccess (gen r)) := by
  intro reports
  induction reports with
  | nil => rfl
  | cons r rest ih =>
    unfold generateReportsLoop
    cases hgr : gen r with
    | error e => simp [List.countP_cons, hgr, isSuccess, ih]
    | ok u => simp [List.countP_cons, hgr, isSuccess, ih]

/-- Abort shape of the webhook loop: the trace is the prefix of successful
sends followed by the single first failing anomaly, nothing after it. -/
theorem webhookSendLoop_abort_shape (send : AnomalyDetection → Except String Unit) :
    ∀ l : List AnomalyDetection,
      webhookSendLoop send l =
        l.takeWhile (fun a => isSuccess (send a)) ++
          (l.dropWhile (fun a => isSuccess (send a))).take 1 := by
  intro l
  induction l with
  | nil => rfl
  | cons x rest ih =>
    unfold webhookSendLoop
    cases hsx : send x with
    | error e => simp [List.takeWhile_cons, List.dropWhile_cons, hsx, isSuccess]
    | ok u => simp [List.takeWhile_cons, List.dropWhile_cons, hsx, isSuccess, ih]

/-- Abort shape of the per-address profile loop: identical uncaught-escape
behavior. -/
theorem profileUpdateLoop_abort_shape (upd : String → Except String Unit) :
    ∀ l : List String,
      profileUpdateLoop upd l =
        l.takeWhile (fun a => isSuccess (upd a)) ++
          (l.dropWhile (fun a => isSuccess (upd a))).take 1 := by
  intro l
  induction l with
  | nil => rfl
  | cons x rest ih =>
    unfold profileUpdateLoop
    cases hux : upd x with
    | error e => simp [List.takeWhile_cons, List.dropWhile_cons, hux, isSuccess]
    | ok u => simp [List.takeWhile_cons, List.dropWhile_cons, hux, isSuccess, ih]

/-- C3 (amended): only the due-report loop of
`generate_scheduled_reports_task` isolates per-item exceptions — it
processes every due report and counts exactly the successful generations —
while the per-anomaly loop of `trigger_webhooks_task` and the per-address
loop of `update_user_behavior_profiles_task` stop at the first failing
item: their traces are the successful prefix plus that first failing item,
and the remaining items of the batch are skipped. -/
theorem C3_amended_per_item_isolation :
    (∀ (gen : AutomatedReport → Except String Unit) (now : PDateTime)
        (reports : List AutomatedReport),
      (generateReportsLoop gen now reports).1.length = reports.length ∧
      (generateReportsLoop gen now reports).2 =
        reports.countP (fun r => isSuccess (gen r))) ∧
    (∀ (send : AnomalyDetection → Except String Unit) (now : Int)
        (rows : List AnomalyDetection),
      trigger_webhooks_task send now rows =
        (selectedAnomalies now rows).takeWhile (fun a => isSuccess (send a)) ++
          ((selectedAnomalies now rows).dropWhile (fun a => isSuccess (send a))).take 1) ∧
    (∀ (upd : String → Except String Unit) (addresses : List String),
      profileUpdateLoop upd addresses =
        addresses.takeWhile (fun a => isSuccess (upd a)) ++
          (addresses.dropWhile (fun a => isSuccess (upd a))).take 1) := by
  refine ⟨fun gen now reports => ⟨?_, ?_⟩, fun send now rows => ?_, fun upd addresses => ?_⟩
  · exact generateReportsLoop_length gen now reports
  · exact generateReportsLoop_count gen now reports
  · exact webhookSendLoop_abort_shape send (selectedAnomalies now rows)
  · exact profileUpdateLoop_abort_shape upd addresses

/-- C1: for every address the profile loop updates, the stored risk score
is exactly the sum of the applicable contributions — 0.3 for frequency
above 10 tx/day, 0.2 for volume above 100, 0.3 for at most 2 preferred
collections with more than 10 transactions — clamped to 1, and therefore
lies in [0, 1] whatever the transaction history. -/
theorem C1_risk_score_invariant (now : Int) (txs : List NFTTransaction) (address : String)
    (existing : Option UserBehaviorProfile) (h : userTxs txs address ≠ []) :
    (updateProfileForAddress now txs address existing).risk_score =
      min ((if 10 < (updateProfileForAddress now txs address existing).transaction_frequency
              then (0.3 : ℚ) else 0) +
           (if 100 < (updateProfileForAddress now txs address existing).total_volume
              then (0.2 : ℚ) else 0) +
           (if (updateProfileForAddress now txs address existing).preferred_collections.length ≤ 2 ∧
               10 < (updateProfileForAddress now txs address existing).total_transactions
              then (0.3 : ℚ) else 0)) 1 ∧
    0 ≤ (updateProfileForAddress now txs address existing).risk_score ∧
    (updateProfileForAddress now txs address existing).risk_score ≤ 1 := by
  have hne : (userTxs txs address).isEmpty = false := by
    cases hu : userTxs txs address with
    | nil => exact absurd hu h
    | cons x xs => rfl
  simp only [updateProfileForAddress, hne, Bool.false_eq_true, if_false, computedProfile,
    List.length_map]
  exact ⟨riskFrom_eq_clamped_sum _ _ _ _, (riskFrom_bounds _ _ _ _).1, (riskFrom_bounds _ _ _ _).2⟩

/-- Witness for C1 at a concrete one-transaction history. -/
theorem C1_risk_score_invariant_witness :
    userTxs [⟨some 5, 0, "c1", "alice", "bob"⟩] "alice" ≠ [] ∧
    (0 ≤ (updateProfileForAddress 0 [⟨some 5, 0, "c1", "alice", "bob"⟩] "alice" none).risk_score ∧
     (updateProfileForAddress 0 [⟨some 5, 0, "c1", "alice", "bob"⟩] "alice" none).risk_score ≤ 1) :=
  ⟨by decide, (C1_risk_score_invariant 0 [⟨some 5, 0, "c1", "alice", "bob"⟩] "alice" none (by decide)).2⟩

/-- Overwriting the derived profile fields twice from the same transaction
list is the same as overwriting them once: every written field is a
function of the transactions alone, and `wallet_address` and `first_seen`
pass through. -/
theorem computedProfile_idem (p : UserBehaviorProfile) (utx : List NFTTransaction) :
    computedProfile (computedProfile p utx) utx = computedProfile p utx := rfl

/-- Re-running the per-address upsert on its own output is a no-op,
whatever the two invocation times are. -/
theorem updateProfileForAddress_idem (now1 now2 : Int) (txs : List NFTTransaction)
    (address : String) (existing : Option UserBehaviorProfile) :
    updateProfileForAddress now2 txs address
        (some (updateProfileForAddress now1 txs address existing)) =
      updateProfileForAddress now1 txs address existing := by
  unfold updateProfileForAddress
  cases h : (userTxs txs address).isEmpty with
  | true => simp [h]
  | false => simp [h, computedProfile_idem]

/-- Addresses outside the processed list keep their stored profile. -/
theorem foldl_profileStep_not_mem (now : Int) (txs : List NFTTransaction) :
    ∀ (l : List String) (s : String → Option UserBehaviorProfile) (a : String), a ∉ l →
      List.foldl (profileStep now txs) s l a = s a := by
  intro l
  induction l with
  | nil => intro s a _; rfl
  | cons x xs ih =>
    intro s a ha
    have hax : a ≠ x := fun he => ha (he ▸ List.mem_cons_self x xs)
    have haxs : a ∉ xs := fun hm => ha (List.mem_cons_of_mem x hm)
    rw [List.foldl_cons, ih _ a haxs]
    simp [profileStep, hax]

/-- Every processed address ends the pass holding some upserted profile. -/
theorem foldl_profileStep_mem (now : Int) (txs : List NFTTransaction) :
    ∀ (l : List String) (s : String → Option UserBehaviorProfile) (a : String), a ∈ l →
      ∃ v, List.foldl (profileStep now txs) s l a = some (updateProfileForAddress now txs a v) := by
  intro l
  induction l with
  | nil => intro s a ha; exact absurd ha (List.not_mem_nil a)
  | cons x xs ih =>
    intro s a ha
    by_cases hxs : a ∈ xs
    · exact ih _ a hxs
    · have hax : a = x := by
        rcases List.mem_cons.mp ha with h | h
        · exact h
        · exact absurd h hxs
      subst hax
      rw [List.foldl_cons, foldl_profileStep_not_mem now txs xs _ a hxs]
      exact ⟨s a, by simp [profileStep]⟩

/-- A pass over addresses whose stored profiles are already upsert results
leaves the store unchanged. -/
theorem foldl_profileStep_saturated (now1 now2 : Int) (txs : List NFTTransaction) :
    ∀ (l : List String) (s : String → Option UserBehaviorProfile),
      (∀ a ∈ l, ∃ v, s a = some (updateProfileForAddress now1 txs a v)) →
      List.foldl (profileStep now2 txs) s l = s := by
  intro l
  induction l with
  | nil => intro s _; rfl
  | cons x xs ih =>
    intro s hs
    have hstep : profileStep now2 txs s x = s := by
      funext b
      by_cases hbx : b = x
      · subst hbx
        obtain ⟨v, hv⟩ := hs b (List.mem_cons_self b xs)
        simp [profileStep, hv, updateProfileForAddress_idem]
      · simp [profileStep, hbx]
    rw [List.foldl_cons, hstep]
    exact ih s (fun a ha => hs a (List.mem_cons_of_mem x ha))

/-- Membership in a conditional set-insertion of one address. -/
theorem mem_addIf (L : List String) (x a : String) :
    (a ∈ if x ≠ "" ∧ x ∉ L then L ++ [x] else L) ↔ a ∈ L ∨ (a = x ∧ x ≠ "") := by
  split_ifs with h
  · simp only [List.mem_append, List.mem_singleton]
    tauto
  · push_neg at h
    constructor
    · exact Or.inl
    · rintro (h1 | ⟨rfl, h2⟩)
      · exact h1
      · exact h h2

/-- Membership after adding one transaction's counterparties. -/
theorem mem_addAddresses (acc : List String) (tx : NFTTransaction) (a : String) :
    a ∈ addAddresses acc tx ↔
      a ∈ acc ∨ (a = tx.buyer_address ∧ tx.buyer_address ≠ "") ∨
        (a = tx.seller_address ∧ tx.seller_address ≠ "") := by
  unfold addAddresses
  rw [mem_addIf, mem_addIf]
  tauto

/-- Membership in the accumulated address set of a transaction list. -/
theorem mem_foldl_addAddresses :
    ∀ (l : List NFTTransaction) (acc : List String) (a : String),
      a ∈ l.foldl addAddresses acc ↔
        a ∈ acc ∨ ∃ tx ∈ l, (a = tx.buyer_address ∧ tx.buyer_address ≠ "") ∨
          (a = tx.seller_address ∧ tx.seller_address ≠ "") := by
  intro l
  induction l with
  | nil => intro acc a; simp
  | cons x xs ih =>
    intro acc a
    rw [List.foldl_cons, ih, mem_addAddresses]
    simp only [List.mem_cons, exists_eq_or_imp]
    exact or_assoc

/-- An address is collected exactly when it is a non-empty counterparty of
some transaction inside the window. -/
theorem mem_recentAddresses (w : Int) (txs : List NFTTransaction) (a : String) :
    a ∈ recentAddresses w txs ↔
      ∃ tx ∈ txs, w ≤ tx.timestamp ∧
        ((a = tx.buyer_address ∧ tx.buyer_address ≠ "") ∨
         (a = tx.seller_address ∧ tx.seller_address ≠ "")) := by
  unfold recentAddresses
  rw [mem_foldl_addAddresses]
  simp only [List.not_mem_nil, false_or, List.mem_filter, decide_eq_true_eq]
  constructor
  · rintro ⟨tx, ⟨htx, hts⟩, hname⟩
    exact ⟨tx, htx, hts, hname⟩
  · rintro ⟨tx, htx, hts, hname⟩
    exact ⟨tx, ⟨htx, hts⟩, hname⟩

/-- Widening the window keeps every collected address. -/
theorem recentAddresses_mono (w1 w2 : Int) (hw : w1 ≤ w2) (txs : List NFTTransaction)
    (a : String) (h : a ∈ recentAddresses w2 txs) : a ∈ recentAddresses w1 txs := by
  rw [mem_recentAddresses] at h ⊢
  obtain ⟨tx, htx, hts, hname⟩ := h
  exact ⟨tx, htx, le_trans hw hts, hname⟩

/-- C4: the behavior-profile recomputation is idempotent — a second run of
`update_user_behavior_profiles_task` over an unchanged transaction history
returns the profile store of the first run unchanged, so every profile
field is identical to running the task once. -/
theorem C4_profile_recomputation_idempotent (now1 now2 : Int) (txs : List NFTTransaction)
    (store : String → Option UserBehaviorProfile) (h : now1 ≤ now2) :
    update_user_behavior_profiles_task now2 txs
        (update_user_behavior_profiles_task now1 txs store) =
      update_user_behavior_profiles_task now1 txs store := by
  unfold update_user_behavior_profiles_task
  apply foldl_profileStep_saturated now1 now2 txs
  intro a ha
  have ha1 : a ∈ recentAddresses (now1 - 604800) txs :=
    recentAddresses_mono _ _ (by linarith) txs a ha
  exact foldl_profileStep_mem now1 txs _ store a ha1

/-- Witness for C4 at a concrete one-transaction history and empty store. -/
theorem C4_profile_recomputation_idempotent_witness :
    (604800 : Int) ≤ 604800 ∧
    update_user_behavior_profiles_task 604800 [⟨some 5, 604800, "c1", "alice", "bob"⟩]
        (update_user_behavior_profiles_task 604800 [⟨some 5, 604800, "c1", "alice", "bob"⟩]
          (fun _ => none)) =
      update_user_behavior_profiles_task 604800 [⟨some 5, 604800, "c1", "alice", "bob"⟩]
        (fun _ => none) :=
  ⟨le_refl 604800,
   C4_profile_recomputation_idempotent 604800 604800 [⟨some 5, 604800, "c1", "alice", "bob"⟩]
     (fun _ => none) (le_refl 604800)⟩
